import Mathlib

/-!
Shallow embedding of the Flask record API (src/app.py) and proofs about the
behaviour of its operations: create, partial update, delete, health check,
and the 404 error handler.  Python strings are modelled by String, JSON
mappings whose values the claims exercise by association lists from String
to String, JSON bodies by an inductive Json type, and each call of
datetime.now by an explicit DateTime argument.
-/

/-- A wall-clock instant at microsecond resolution, the data carried by a
Python datetime value in UTC. -/
structure DateTime where
  year : Nat
  month : Nat
  day : Nat
  hour : Nat
  minute : Nat
  second : Nat
  microsecond : Nat
deriving DecidableEq

/-- Characters that Python str.strip removes: space, tab, newline, carriage
return, vertical tab and form feed. -/
def isPyWhitespace (c : Char) : Bool :=
  c.toNat = 32 || c.toNat = 9 || c.toNat = 10 || c.toNat = 13 ||
  c.toNat = 11 || c.toNat = 12

/-- Removal of leading and trailing whitespace from a character list. -/
def stripList (l : List Char) : List Char :=
  ((l.dropWhile isPyWhitespace).reverse.dropWhile isPyWhitespace).reverse

/-- The Python str.strip method on strings. -/
def pyStrip (s : String) : String :=
  String.mk (stripList s.toList)

/-- Left-pad the decimal rendering of a number with zeros up to a width,
as the strftime fixed-width fields do. -/
def padTo (w : Nat) (n : Nat) : String :=
  String.mk (List.replicate (w - (toString n).length) '0') ++ toString n

/-- The strftime format string used by Record.to_dict, line 36 of app.py:
year, month, day, hour, minute, second, six microsecond digits and a
literal Z suffix. -/
def strftimeISO (d : DateTime) : String :=
  padTo 4 d.year ++ "-" ++ padTo 2 d.month ++ "-" ++ padTo 2 d.day ++ "T" ++
  padTo 2 d.hour ++ ":" ++ padTo 2 d.minute ++ ":" ++ padTo 2 d.second ++
  "." ++ padTo 6 d.microsecond ++ "Z"

/-- The Python datetime.isoformat method on an aware UTC datetime, used by
health_check, line 91 of app.py: the fractional part is omitted when the
microsecond field is zero, and the offset renders as +00:00, not Z. -/
def isoformatUTC (d : DateTime) : String :=
  padTo 4 d.year ++ "-" ++ padTo 2 d.month ++ "-" ++ padTo 2 d.day ++ "T" ++
  padTo 2 d.hour ++ ":" ++ padTo 2 d.minute ++ ":" ++ padTo 2 d.second ++
  (if d.microsecond = 0 then "" else "." ++ padTo 6 d.microsecond) ++
  "+00:00"

/-- JSON values, enough to express every response body of the API. -/
inductive Json where
  | null : Json
  | str : String → Json
  | num : Int → Json
  | arr : List Json → Json
  | obj : List (String × Json) → Json

/-- A stored row of the records table: the Record model of app.py,
lines 19 to 27. -/
structure Rec where
  id : Nat
  name : String
  message : String
  note : Option String
  created_at : DateTime
  updated_at : DateTime
deriving DecidableEq

/-- The records table together with the next auto-increment id the storage
engine will assign. -/
structure Store where
  nextId : Nat
  rows : List Rec
deriving DecidableEq

/-- The empty database, before any record is created. -/
def Store.empty : Store := ⟨1, []⟩

/-- A transport-level response: HTTP status code and JSON body. -/
structure Response where
  status : Nat
  body : Json

/-- An error body, the shape every error response of app.py uses. -/
def errBody (msg : String) : Json := Json.obj [("error", Json.str msg)]

/-- The 404 error handler of app.py, lines 140 to 143; get_or_404 failures
inside update_record and delete_record are dispatched to it as well. -/
def not_found : Response := ⟨404, errBody "Endpoint not found"⟩

/-- Record.to_dict, lines 29 to 38 of app.py: both timestamps render
through the strftime Z format, and an absent note serializes as null. -/
def recJson (r : Rec) : Json :=
  Json.obj [
    ("id", Json.num r.id),
    ("name", Json.str r.name),
    ("message", Json.str r.message),
    ("note", match r.note with | none => Json.null | some s => Json.str s),
    ("createdAt", Json.str (strftimeISO r.created_at)),
    ("updatedAt", Json.str (strftimeISO r.updated_at))]

/-- A create payload: each field is none when the key is absent or null,
and some s when it maps to the string s. -/
structure CreateInput where
  name : Option String
  message : Option String
  note : Option String
deriving DecidableEq

/-- Key lookup in a JSON object body, the dict indexing of the handler. -/
def lookupKey (data : List (String × String)) (k : String) : Option String :=
  (data.find? fun p => p.1 == k).map Prod.snd

/-- Line 42 to 43 of app.py: name is overwritten by its stripped input
value only when the key is present and the stripped value is truthy. -/
def applyName (r : Rec) (data : List (String × String)) : Rec :=
  match lookupKey data "name" with
  | some n => if pyStrip n = "" then r else { r with name := pyStrip n }
  | none => r

/-- Line 44 to 45 of app.py: the same rule for message. -/
def applyMessage (r : Rec) (data : List (String × String)) : Rec :=
  match lookupKey data "message" with
  | some m => if pyStrip m = "" then r else { r with message := pyStrip m }
  | none => r

/-- Line 46 to 47 of app.py: whenever the note key is present, note becomes
the stripped value if the raw value is truthy and None otherwise.  A
whitespace-only raw value is truthy, so its stripped value, the empty
string, is stored. -/
def applyNote (r : Rec) (data : List (String × String)) : Rec :=
  match lookupKey data "note" with
  | some v => { r with note := if v = "" then none else some (pyStrip v) }
  | none => r

/-- Record.update_from_dict, lines 40 to 49 of app.py: the three field
rules in order, then updated_at is reset unconditionally. -/
def update_from_dict (r : Rec) (data : List (String × String))
    (now : DateTime) : Rec :=
  { applyNote (applyMessage (applyName r data) data) data with
      updated_at := now }

/-- The row the Record constructor call of lines 73 to 77 builds: the two
timestamp column defaults are evaluated independently, as two separate
clock reads t1 and t2. -/
def newRecord (s : Store) (inp : CreateInput) (t1 t2 : DateTime) : Rec :=
  { id := s.nextId
    name := pyStrip (inp.name.getD "")
    message := pyStrip (inp.message.getD "")
    note := if inp.note.getD "" = "" then none
            else some (pyStrip (inp.note.getD ""))
    created_at := t1
    updated_at := t2 }

/-- create_record, lines 65 to 83 of app.py.  The guard on line 69 tests
Python truthiness of the raw values: absent, null and the empty string fail
it, while a whitespace-only string passes. -/
def create_record (s : Store) (inp : CreateInput) (t1 t2 : DateTime) :
    Response × Store :=
  if inp.name.getD "" = "" ∨ inp.message.getD "" = "" then
    (⟨400, errBody "Name and message are required"⟩, s)
  else
    (⟨201, recJson (newRecord s inp t1 t2)⟩,
     ⟨s.nextId + 1, s.rows ++ [newRecord s inp t1 t2]⟩)

/-- Row lookup by primary key, the Record.query.get of app.py. -/
def findRec (s : Store) (rid : Nat) : Option Rec :=
  s.rows.find? fun r => r.id == rid

/-- update_record, lines 95 to 119 of app.py: get_or_404 first, then the
truthiness test on the body, which rejects an absent or null body and also
the empty mapping, then update_from_dict and commit. -/
def update_record (s : Store) (rid : Nat)
    (data : Option (List (String × String))) (now : DateTime) :
    Response × Store :=
  match findRec s rid with
  | none => (not_found, s)
  | some r =>
    match data with
    | none => (⟨400, errBody "No data provided"⟩, s)
    | some d =>
      if d = [] then (⟨400, errBody "No data provided"⟩, s)
      else
        (⟨200, Json.obj [
            ("message", Json.str "Record updated successfully"),
            ("record", recJson (update_from_dict r d now))]⟩,
         ⟨s.nextId, s.rows.map fun x =>
            if x.id = rid then update_from_dict r d now else x⟩)

/-- delete_record, lines 122 to 136 of app.py: get_or_404 first, then the
row is removed and the commit confirmed. -/
def delete_record (s : Store) (rid : Nat) : Response × Store :=
  match findRec s rid with
  | none => (not_found, s)
  | some _ =>
    (⟨200, Json.obj [("message", Json.str "Record deleted successfully")]⟩,
     ⟨s.nextId, s.rows.filter fun x => x.id != rid⟩)

/-- get_records, lines 53 to 63 of app.py. -/
def get_records (s : Store) : Response :=
  ⟨200, Json.obj [
    ("records", Json.arr (s.rows.map recJson)),
    ("total", Json.num s.rows.length)]⟩

/-- health_check, lines 85 to 92 of app.py: the timestamp goes through
isoformat, not through the strftime Z format of Record.to_dict. -/
def health_check (now : DateTime) : Response :=
  ⟨200, Json.obj [
    ("status", Json.str "OK"),
    ("message", Json.str "Flask API is running"),
    ("timestamp", Json.str (isoformatUTC now))]⟩

/-- States of the store reachable by any sequence of API calls, with
arbitrary request payloads and clock reads. -/
inductive Reachable : Store → Prop where
  | init : Reachable Store.empty
  | step_create (s : Store) (inp : CreateInput) (t1 t2 : DateTime) :
      Reachable s → Reachable (create_record s inp t1 t2).2
  | step_update (s : Store) (rid : Nat)
      (data : Option (List (String × String))) (now : DateTime) :
      Reachable s → Reachable (update_record s rid data now).2
  | step_delete (s : Store) (rid : Nat) :
      Reachable s → Reachable (delete_record s rid).2

/-- States reachable when every create payload is sane: a name or message
value whose trim is empty is only ever the literal empty string (or an
absent key), never a non-empty whitespace-only string.  Updates and deletes
are unrestricted. -/
inductive ReachableSane : Store → Prop where
  | init : ReachableSane Store.empty
  | step_create (s : Store) (inp : CreateInput) (t1 t2 : DateTime) :
      ReachableSane s →
      (pyStrip (inp.name.getD "") = "" → inp.name.getD "" = "") →
      (pyStrip (inp.message.getD "") = "" → inp.message.getD "" = "") →
      ReachableSane (create_record s inp t1 t2).2
  | step_update (s : Store) (rid : Nat)
      (data : Option (List (String × String))) (now : DateTime) :
      ReachableSane s → ReachableSane (update_record s rid data now).2
  | step_delete (s : Store) (rid : Nat) :
      ReachableSane s → ReachableSane (delete_record s rid).2

/-- Concrete instants used to instantiate clock reads in closed theorems. -/
def dA : DateTime := ⟨2026, 1, 2, 3, 4, 5, 0⟩

/-- A second concrete instant, one microsecond after dA. -/
def dB : DateTime := ⟨2026, 1, 2, 3, 4, 5, 1⟩

/-- A concrete stored record used to instantiate closed theorems. -/
def r0 : Rec := ⟨1, "A", "B", some "x", dA, dA⟩

/-- A store holding exactly the record r0, with next id 2. -/
def s1 : Store := ⟨2, [r0]⟩

lemma dropWhile_eq_self_of_prefix {α : Type} (p : α → Bool) (x l : List α)
    (hpre : x <+: l) (hdw : l.dropWhile p = l) : x.dropWhile p = x := by
  cases x with
  | nil => rfl
  | cons a x2 =>
    obtain ⟨t, ht⟩ := hpre
    subst ht
    rw [List.cons_append, List.dropWhile_cons] at hdw
    rw [List.dropWhile_cons]
    by_cases hp : p a = true
    · exfalso
      rw [if_pos hp] at hdw
      have hlen := congrArg List.length hdw
      have hle := (List.dropWhile_suffix (l := x2 ++ t) p).length_le
      simp only [List.length_cons] at hlen
      omega
    · rw [if_neg hp]

lemma stripList_noFront (l : List Char) :
    (stripList l).dropWhile isPyWhitespace = stripList l :=
  dropWhile_eq_self_of_prefix _ _ _
    (List.rdropWhile_prefix isPyWhitespace (l.dropWhile isPyWhitespace))
    (List.dropWhile_idempotent isPyWhitespace l)

lemma stripList_noBack (l : List Char) :
    List.rdropWhile isPyWhitespace (stripList l) = stripList l :=
  List.rdropWhile_idempotent isPyWhitespace (l.dropWhile isPyWhitespace)

lemma stripList_idem (l : List Char) :
    stripList (stripList l) = stripList l := by
  calc stripList (stripList l)
      = List.rdropWhile isPyWhitespace
          ((stripList l).dropWhile isPyWhitespace) := rfl
    _ = List.rdropWhile isPyWhitespace (stripList l) := by
          rw [stripList_noFront]
    _ = stripList l := stripList_noBack l

lemma pyStrip_idem (s : String) : pyStrip (pyStrip s) = pyStrip s :=
  congrArg String.mk (stripList_idem s.toList)

lemma update_from_dict_id (r : Rec) (d : List (String × String))
    (now : DateTime) : (update_from_dict r d now).id = r.id := by
  unfold update_from_dict applyNote applyMessage applyName
  cases lookupKey d "name" <;> cases lookupKey d "message" <;>
    cases lookupKey d "note" <;> simp <;> split_ifs <;> rfl

lemma update_from_dict_created (r : Rec) (d : List (String × String))
    (now : DateTime) : (update_from_dict r d now).created_at = r.created_at := by
  unfold update_from_dict applyNote applyMessage applyName
  cases lookupKey d "name" <;> cases lookupKey d "message" <;>
    cases lookupKey d "note" <;> simp <;> split_ifs <;> rfl

lemma update_from_dict_updated (r : Rec) (d : List (String × String))
    (now : DateTime) : (update_from_dict r d now).updated_at = now := rfl

lemma update_from_dict_name (r : Rec) (d : List (String × String))
    (now : DateTime) :
    (update_from_dict r d now).name =
      match lookupKey d "name" with
      | some n => if pyStrip n = "" then r.name else pyStrip n
      | none => r.name := by
  unfold update_from_dict applyNote applyMessage applyName
  cases lookupKey d "name" <;> cases lookupKey d "message" <;>
    cases lookupKey d "note" <;> simp <;> split_ifs <;> rfl

lemma update_from_dict_message (r : Rec) (d : List (String × String))
    (now : DateTime) :
    (update_from_dict r d now).message =
      match lookupKey d "message" with
      | some m => if pyStrip m = "" then r.message else pyStrip m
      | none => r.message := by
  unfold update_from_dict applyNote applyMessage applyName
  cases lookupKey d "name" <;> cases lookupKey d "message" <;>
    cases lookupKey d "note" <;> simp <;> split_ifs <;> rfl

lemma update_from_dict_note (r : Rec) (d : List (String × String))
    (now : DateTime) :
    (update_from_dict r d now).note =
      match lookupKey d "note" with
      | some v => if v = "" then none else some (pyStrip v)
      | none => r.note := by
  unfold update_from_dict applyNote applyMessage applyName
  cases lookupKey d "name" <;> cases lookupKey d "message" <;>
    cases lookupKey d "note" <;> simp <;> split_ifs <;> rfl

lemma findRec_id (s : Store) (rid : Nat) (r : Rec)
    (h : findRec s rid = some r) : r.id = rid := by
  have hp := List.find?_some h
  simpa using hp

lemma findRec_mem (s : Store) (rid : Nat) (r : Rec)
    (h : findRec s rid = some r) : r ∈ s.rows :=
  List.mem_of_find?_eq_some h

lemma find?_map_replace (rows : List Rec) (rid : Nat) (r r2 : Rec)
    (hf : rows.find? (fun x => x.id == rid) = some r) (h2 : r2.id = rid) :
    (rows.map fun x => if x.id = rid then r2 else x).find?
      (fun x => x.id == rid) = some r2 := by
  induction rows with
  | nil => simp at hf
  | cons a l ih =>
    rw [List.map_cons]
    by_cases ha : a.id = rid
    · rw [if_pos ha]
      exact List.find?_cons_of_pos _ (by simp [h2])
    · rw [if_neg ha, List.find?_cons_of_neg _ (by simp [ha])]
      rw [List.find?_cons_of_neg _ (by simp [ha])] at hf
      exact ih hf

lemma update_record_missing (s : Store) (rid : Nat)
    (data : Option (List (String × String))) (now : DateTime)
    (h : findRec s rid = none) :
    update_record s rid data now = (not_found, s) := by
  unfold update_record
  rw [h]

lemma delete_record_missing (s : Store) (rid : Nat)
    (h : findRec s rid = none) :
    delete_record s rid = (not_found, s) := by
  unfold delete_record
  rw [h]

lemma update_record_found (s : Store) (rid : Nat) (r : Rec)
    (d : List (String × String)) (now : DateTime)
    (hr : findRec s rid = some r) (hd : d ≠ []) :
    update_record s rid (some d) now =
      (⟨200, Json.obj [
          ("message", Json.str "Record updated successfully"),
          ("record", recJson (update_from_dict r d now))]⟩,
       ⟨s.nextId, s.rows.map fun x =>
          if x.id = rid then update_from_dict r d now else x⟩) := by
  unfold update_record
  rw [hr]
  simp [hd]

lemma lookupKey_nil (k : String) : lookupKey [] k = none := rfl

/-- C1 counterexample: a create payload whose name is the two-space string
is empty after trimming, yet create_record accepts it with status 201 and
persists a record, because the guard on line 69 tests truthiness of the raw
value before any trim. -/
theorem C1_counterexample :
    pyStrip "  " = "" ∧
    (create_record Store.empty ⟨some "  ", some "hi", none⟩ dA dA).1.status
      = 201 ∧
    (create_record Store.empty ⟨some "  ", some "hi", none⟩ dA dA).2
      ≠ Store.empty :=
  ⟨by decide, by decide, by decide⟩

/-- C1 (amended): for every create request whose payload maps name to a
value that is absent, null or the literal empty string, or maps message to
such a value, the create operation fails with status 400 and the error body
of a ValidationError, and no record is persisted.  A value that is
non-empty but whitespace-only passes the guard. -/
theorem C1_create_blank_rejected (s : Store) (inp : CreateInput)
    (t1 t2 : DateTime)
    (h : inp.name.getD "" = "" ∨ inp.message.getD "" = "") :
    (create_record s inp t1 t2).1.status = 400 ∧
    (create_record s inp t1 t2).1.body =
      errBody "Name and message are required" ∧
    (create_record s inp t1 t2).2 = s := by
  unfold create_record
  rw [if_pos h]
  exact ⟨rfl, rfl, rfl⟩

/-- C1 witness: the amended theorem applied to a payload with an absent
name. -/
theorem C1_witness :
    (create_record Store.empty ⟨none, some "x", none⟩ dA dA).1.status = 400 ∧
    (create_record Store.empty ⟨none, some "x", none⟩ dA dA).1.body =
      errBody "Name and message are required" ∧
    (create_record Store.empty ⟨none, some "x", none⟩ dA dA).2 = Store.empty :=
  C1_create_blank_rejected Store.empty ⟨none, some "x", none⟩ dA dA
    (Or.inl rfl)

/-- C2 counterexample: the state reached from the empty store by the single
create request with name two spaces and message hi is reachable, and its
sole record carries an empty name, so the invariant that name is never
empty or whitespace-only fails on the code. -/
theorem C2_counterexample :
    Reachable (create_record Store.empty ⟨some "  ", some "hi", none⟩
      dA dA).2 ∧
    ((create_record Store.empty ⟨some "  ", some "hi", none⟩ dA dA).2.rows.map
      Rec.name) = [""] :=
  ⟨Reachable.step_create Store.empty ⟨some "  ", some "hi", none⟩ dA dA
      Reachable.init,
   by decide⟩

/-- C2 (amended): for every state reachable by create operations whose name
and message payload values are whitespace-only only when literally empty or
absent, together with arbitrary update and delete operations, every stored
record has a name and a message that are non-empty and not whitespace-only.
-/
theorem C2_sane_invariant (s : Store) (h : ReachableSane s) :
    ∀ r ∈ s.rows, pyStrip r.name ≠ "" ∧ pyStrip r.message ≠ "" := by
  induction h with
  | init =>
    intro r hr
    simp [Store.empty] at hr
  | step_create s inp t1 t2 hs hn hm ih =>
    intro r hr
    by_cases hv : inp.name.getD "" = "" ∨ inp.message.getD "" = ""
    · rw [create_record, if_pos hv] at hr
      exact ih r hr
    · rw [create_record, if_neg hv] at hr
      push_neg at hv
      rcases List.mem_append.mp hr with hold | hnew
      · exact ih r hold
      · have hre : r = newRecord s inp t1 t2 := List.mem_singleton.mp hnew
        subst hre
        constructor
        · show pyStrip (pyStrip (inp.name.getD "")) ≠ ""
          rw [pyStrip_idem]
          intro hzero
          exact hv.1 (hn hzero)
        · show pyStrip (pyStrip (inp.message.getD "")) ≠ ""
          rw [pyStrip_idem]
          intro hzero
          exact hv.2 (hm hzero)
  | step_update s rid data now hs ih =>
    intro r hr
    cases hfind : findRec s rid with
    | none =>
      rw [update_record_missing s rid data now hfind] at hr
      exact ih r hr
    | some rr =>
      cases data with
      | none =>
        rw [update_record] at hr
        rw [hfind] at hr
        exact ih r hr
      | some d =>
        by_cases hd : d = []
        · subst hd
          rw [update_record] at hr
          rw [hfind] at hr
          simp at hr
          exact ih r hr
        · rw [update_record_found s rid rr d now hfind hd] at hr
          rw [List.mem_map] at hr
          obtain ⟨x, hx, hmap⟩ := hr
          by_cases hxid : x.id = rid
          · rw [if_pos hxid] at hmap
            subst hmap
            have hrr := ih rr (findRec_mem s rid rr hfind)
            constructor
            · rw [update_from_dict_name]
              cases hl : lookupKey d "name" with
              | none => exact hrr.1
              | some n =>
                show pyStrip (if pyStrip n = "" then rr.name
                  else pyStrip n) ≠ ""
                by_cases hb : pyStrip n = ""
                · rw [if_pos hb]
                  exact hrr.1
                · rw [if_neg hb, pyStrip_idem]
                  exact hb
            · rw [update_from_dict_message]
              cases hl : lookupKey d "message" with
              | none => exact hrr.2
              | some m =>
                show pyStrip (if pyStrip m = "" then rr.message
                  else pyStrip m) ≠ ""
                by_cases hb : pyStrip m = ""
                · rw [if_pos hb]
                  exact hrr.2
                · rw [if_neg hb, pyStrip_idem]
                  exact hb
          · rw [if_neg hxid] at hmap
            subst hmap
            exact ih x hx
  | step_delete s rid hs ih =>
    intro r hr
    cases hfind : findRec s rid with
    | none =>
      rw [delete_record_missing s rid hfind] at hr
      exact ih r hr
    | some rr =>
      rw [delete_record] at hr
      rw [hfind] at hr
      exact ih r (List.mem_of_mem_filter hr)

/-- C2 witness: the amended invariant evaluated on the store reached by one
sane create. -/
theorem C2_witness : pyStrip "A" ≠ "" ∧ pyStrip "B" ≠ "" :=
  C2_sane_invariant (create_record Store.empty ⟨some "A", some "B", none⟩
      dA dA).2
    (ReachableSane.step_create Store.empty ⟨some "A", some "B", none⟩ dA dA
      ReachableSane.init (by decide) (by decide))
    ⟨1, "A", "B", none, dA, dA⟩ (by decide)

/-- C3: for every existing record and every partial-update body whose name
key (respectively message key) maps to a string that is empty after
trimming, the update succeeds with status 200, the stored record keeps its
previous name (respectively message), and updated_at is still reset to the
current time. -/
theorem C3_blank_field_ignored (s : Store) (rid : Nat) (r : Rec)
    (d : List (String × String)) (now : DateTime)
    (hr : findRec s rid = some r) :
    (∀ n, lookupKey d "name" = some n → pyStrip n = "" →
      (update_record s rid (some d) now).1.status = 200 ∧
      findRec (update_record s rid (some d) now).2 rid =
        some (update_from_dict r d now) ∧
      (update_from_dict r d now).name = r.name ∧
      (update_from_dict r d now).updated_at = now) ∧
    (∀ m, lookupKey d "message" = some m → pyStrip m = "" →
      (update_record s rid (some d) now).1.status = 200 ∧
      findRec (update_record s rid (some d) now).2 rid =
        some (update_from_dict r d now) ∧
      (update_from_dict r d now).message = r.message ∧
      (update_from_dict r d now).updated_at = now) := by
  have hfound : ∀ hd : d ≠ [],
      (update_record s rid (some d) now).1.status = 200 ∧
      findRec (update_record s rid (some d) now).2 rid =
        some (update_from_dict r d now) := by
    intro hd
    rw [update_record_found s rid r d now hr hd]
    refine ⟨rfl, ?_⟩
    unfold findRec at hr ⊢
    exact find?_map_replace s.rows rid r (update_from_dict r d now) hr
      (by rw [update_from_dict_id]; exact findRec_id s rid r hr)
  constructor
  · intro n hl hb
    have hd : d ≠ [] := by
      intro hnil
      subst hnil
      rw [lookupKey_nil] at hl
      exact Option.noConfusion hl
    refine ⟨(hfound hd).1, (hfound hd).2, ?_, update_from_dict_updated r d now⟩
    rw [update_from_dict_name, hl]
    show (if pyStrip n = "" then r.name else pyStrip n) = r.name
    rw [if_pos hb]
  · intro m hl hb
    have hd : d ≠ [] := by
      intro hnil
      subst hnil
      rw [lookupKey_nil] at hl
      exact Option.noConfusion hl
    refine ⟨(hfound hd).1, (hfound hd).2, ?_, update_from_dict_updated r d now⟩
    rw [update_from_dict_message, hl]
    show (if pyStrip m = "" then r.message else pyStrip m) = r.message
    rw [if_pos hb]

/-- C3 witness: updating the record of s1 with a whitespace-only name keeps
the name A, returns 200, and resets updated_at to the new clock read. -/
theorem C3_witness :
    (update_record s1 1 (some [("name", " ")]) dB).1.status = 200 ∧
    findRec (update_record s1 1 (some [("name", " ")]) dB).2 1 =
      some (update_from_dict r0 [("name", " ")] dB) ∧
    (update_from_dict r0 [("name", " ")] dB).name = r0.name ∧
    (update_from_dict r0 [("name", " ")] dB).updated_at = dB :=
  (C3_blank_field_ignored s1 1 r0 [("name", " ")] dB (by decide)).1 " "
    (by decide) (by decide)

/-- C4 counterexample: on a record whose note is the string x, an update
body mapping note to the two-space string, which is whitespace-only and so
empty after trimming, sets note to the empty string instead of clearing it
to absent, because line 47 strips a truthy raw value. -/
theorem C4_counterexample :
    pyStrip "  " = "" ∧
    r0.note = some "x" ∧
    (update_from_dict r0 [("note", "  ")] dA).note = some "" :=
  ⟨by decide, rfl, by decide⟩

/-- C4 (amended): when the note key is present in a partial-update body, a
value that is the literal empty string clears note to absent; any non-empty
value, including a whitespace-only one, stores the trimmed value, which is
the empty string in the whitespace-only case; an absent key leaves note
unchanged. -/
theorem C4_update_note_semantics (r : Rec) (d : List (String × String))
    (now : DateTime) :
    (lookupKey d "note" = none → (update_from_dict r d now).note = r.note) ∧
    (lookupKey d "note" = some "" → (update_from_dict r d now).note = none) ∧
    (∀ v, lookupKey d "note" = some v → v ≠ "" →
      (update_from_dict r d now).note = some (pyStrip v)) := by
  refine ⟨?_, ?_, ?_⟩
  · intro h
    rw [update_from_dict_note, h]
  · intro h
    rw [update_from_dict_note, h]
    show (if ("" : String) = "" then none else some (pyStrip "")) = none
    rw [if_pos rfl]
  · intro v h hv
    rw [update_from_dict_note, h]
    show (if v = "" then none else some (pyStrip v)) = some (pyStrip v)
    rw [if_neg hv]

/-- C4 witness: the amended theorem applied to r0 with a body mapping note
to a non-empty value with surrounding whitespace. -/
theorem C4_witness :
    (update_from_dict r0 [("note", " y ")] dA).note = some (pyStrip " y ") :=
  (C4_update_note_semantics r0 [("note", " y ")] dA).2.2 " y " rfl (by decide)

/-- C5 counterexample: a valid create whose note is the two-space string,
which is empty after trimming, stores note as the empty string rather than
absent, because line 76 strips a truthy raw value. -/
theorem C5_counterexample :
    pyStrip "  " = "" ∧
    ((create_record Store.empty ⟨some "A", some "B", some "  "⟩ dA dA).2.rows.map
      Rec.note) = [some ""] :=
  ⟨by decide, by decide⟩

/-- C5 (amended): for every create request with truthy name and message, an
omitted, null or literally empty note is stored as absent; any non-empty
note value, including a whitespace-only one, is stored trimmed, which
yields the empty string rather than absence in the whitespace-only case. -/
theorem C5_create_note_normalization (s : Store) (inp : CreateInput)
    (t1 t2 : DateTime) (hn : inp.name.getD "" ≠ "")
    (hm : inp.message.getD "" ≠ "") :
    (create_record s inp t1 t2).2.rows = s.rows ++ [newRecord s inp t1 t2] ∧
    (inp.note.getD "" = "" → (newRecord s inp t1 t2).note = none) ∧
    (∀ v, inp.note = some v → v ≠ "" →
      (newRecord s inp t1 t2).note = some (pyStrip v)) := by
  refine ⟨?_, ?_, ?_⟩
  · rw [create_record, if_neg ?_]
    intro hcontra
    rcases hcontra with h | h
    · exact hn h
    · exact hm h
  · intro h
    unfold newRecord
    simp only [h]
    simp
  · intro v h hv
    unfold newRecord
    simp only [h]
    show (if (some v).getD "" = "" then none
      else some (pyStrip ((some v).getD ""))) = some (pyStrip v)
    rw [if_neg (by simpa using hv)]
    rfl

/-- C5 witness: a create with a note that carries surrounding whitespace
around a non-empty core stores the trimmed note. -/
theorem C5_witness :
    (create_record Store.empty ⟨some "A", some "B", some " y "⟩ dA dA).2.rows
      = Store.empty.rows ++
        [newRecord Store.empty ⟨some "A", some "B", some " y "⟩ dA dA] ∧
    (newRecord Store.empty ⟨some "A", some "B", some " y "⟩ dA dA).note =
      some (pyStrip " y ") :=
  ⟨(C5_create_note_normalization Store.empty ⟨some "A", some "B", some " y "⟩
      dA dA (by decide) (by decide)).1,
   (C5_create_note_normalization Store.empty ⟨some "A", some "B", some " y "⟩
      dA dA (by decide) (by decide)).2.2 " y " rfl (by decide)⟩

/-- C6 counterexample: a valid create with omitted note, executed with two
clock reads that differ by one microsecond, returns 201 but stores
created_at dA and updated_at dB with dA distinct from dB: the two column
defaults of lines 26 and 27 are separate calls to datetime.now, so equality
at microsecond granularity is not guaranteed. -/
theorem C6_counterexample :
    (create_record Store.empty ⟨some "A", some "B", none⟩ dA dB).1.status
      = 201 ∧
    ((create_record Store.empty ⟨some "A", some "B", none⟩ dA dB).2.rows.map
      Rec.created_at) = [dA] ∧
    ((create_record Store.empty ⟨some "A", some "B", none⟩ dA dB).2.rows.map
      Rec.updated_at) = [dB] ∧
    dA ≠ dB :=
  ⟨by decide, by decide, by decide, by decide⟩

/-- C6 (amended): for every successful create with truthy name and message
and omitted note, the response status is 201, the stored note is null, and
created_at and updated_at hold the first and the second clock read made at
insert time; the two reads are independent, so the timestamps coincide
exactly when the reads do. -/
theorem C6_create_success_shape (s : Store) (inp : CreateInput)
    (t1 t2 : DateTime) (hn : inp.name.getD "" ≠ "")
    (hm : inp.message.getD "" ≠ "") (ho : inp.note = none) :
    (create_record s inp t1 t2).1.status = 201 ∧
    (newRecord s inp t1 t2).note = none ∧
    (newRecord s inp t1 t2).created_at = t1 ∧
    (newRecord s inp t1 t2).updated_at = t2 ∧
    (create_record s inp t1 t2).2.rows = s.rows ++ [newRecord s inp t1 t2] ∧
    (t1 = t2 →
      (newRecord s inp t1 t2).created_at = (newRecord s inp t1 t2).updated_at)
    := by
  have hv : ¬(inp.name.getD "" = "" ∨ inp.message.getD "" = "") := by
    intro hcontra
    rcases hcontra with h | h
    · exact hn h
    · exact hm h
  refine ⟨?_, ?_, rfl, rfl, ?_, ?_⟩
  · rw [create_record, if_neg hv]
  · unfold newRecord
    simp only [ho]
    simp
  · rw [create_record, if_neg hv]
  · intro h
    rw [h]
    rfl

/-- C6 witness: the amended theorem applied to a valid payload with omitted
note and equal clock reads. -/
theorem C6_witness :
    (create_record Store.empty ⟨some "A", some "B", none⟩ dA dA).1.status
      = 201 ∧
    (newRecord Store.empty ⟨some "A", some "B", none⟩ dA dA).note = none ∧
    (newRecord Store.empty ⟨some "A", some "B", none⟩ dA dA).created_at
      = dA ∧
    (newRecord Store.empty ⟨some "A", some "B", none⟩ dA dA).updated_at
      = dA ∧
    (create_record Store.empty ⟨some "A", some "B", none⟩ dA dA).2.rows =
      Store.empty.rows ++
        [newRecord Store.empty ⟨some "A", some "B", none⟩ dA dA] ∧
    (dA = dA →
      (newRecord Store.empty ⟨some "A", some "B", none⟩ dA dA).created_at =
      (newRecord Store.empty ⟨some "A", some "B", none⟩ dA dA).updated_at) :=
  C6_create_success_shape Store.empty ⟨some "A", some "B", none⟩ dA dA
    (by decide) (by decide) rfl

/-- C7 counterexample: on the existing record of s1, the empty mapping,
which is a well-formed mapping, is rejected with status 400, because the
truthiness test on line 102 treats an empty dict as missing data. -/
theorem C7_counterexample :
    findRec s1 1 = some r0 ∧
    (update_record s1 1 (some []) dA).1.status = 400 ∧
    (update_record s1 1 (some []) dA).1.body = errBody "No data provided" :=
  ⟨rfl, rfl, rfl⟩

/-- C7 (amended): for every existing record, the partial update fails with
status 400 exactly when the body is absent, null, or the empty mapping; any
non-empty mapping is accepted; and a 400 rejection leaves the store
unchanged. -/
theorem C7_update_400_iff_empty_body (s : Store) (rid : Nat) (r : Rec)
    (data : Option (List (String × String))) (now : DateTime)
    (hr : findRec s rid = some r) :
    ((update_record s rid data now).1.status = 400 ↔
      data = none ∨ data = some []) ∧
    (data = none ∨ data = some [] → (update_record s rid data now).2 = s)
    := by
  cases data with
  | none =>
    constructor
    · rw [update_record]
      rw [hr]
      simp
    · intro h
      rw [update_record]
      rw [hr]
  | some d =>
    by_cases hd : d = []
    · subst hd
      constructor
      · rw [update_record]
        rw [hr]
        simp
      · intro h
        rw [update_record]
        rw [hr]
        simp
    · rw [update_record_found s rid r d now hr hd]
      constructor
      · simp [hd]
      · intro h
        rcases h with h | h
        · exact Option.noConfusion h
        · exact absurd (Option.some.inj h) hd

/-- C7 witness: the amended theorem applied to the store s1 with a
non-empty body, which is accepted. -/
theorem C7_witness :
    ((update_record s1 1 (some [("note", "n")]) dA).1.status = 400 ↔
      some [("note", "n")] = none ∨ some [("note", "n")] = some []) ∧
    (some [("note", "n")] = none ∨ some [("note", "n")] = some [] →
      (update_record s1 1 (some [("note", "n")]) dA).2 = s1) :=
  C7_update_400_iff_empty_body s1 1 r0 (some [("note", "n")]) dA (by decide)

/-- C8 counterexample: the health endpoint at instant dB serializes its
timestamp through isoformat as a string ending in the offset +00:00, whose
last character is the digit zero, code point 48, not the letter Z, code
point 90, that the claimed fixed format requires. -/
theorem C8_counterexample :
    (health_check dB).body = Json.obj [
      ("status", Json.str "OK"),
      ("message", Json.str "Flask API is running"),
      ("timestamp", Json.str "2026-01-02T03:04:05.000001+00:00")] ∧
    ((isoformatUTC dB).toList.getLast?).map Char.toNat = some 48 ∧
    ((strftimeISO dB).toList.getLast?).map Char.toNat = some 90 :=
  ⟨rfl, by decide, by decide⟩

/-- C8 (amended): record JSON serializes created_at and updated_at through
the fixed strftime format, which always ends in the literal Z, while the
health endpoint serializes its timestamp through isoformat, which always
ends in the literal offset +00:00 and never in Z. -/
theorem C8_timestamp_formats (r : Rec) (d : DateTime) :
    recJson r = Json.obj [
      ("id", Json.num r.id),
      ("name", Json.str r.name),
      ("message", Json.str r.message),
      ("note", match r.note with | none => Json.null | some s => Json.str s),
      ("createdAt", Json.str (strftimeISO r.created_at)),
      ("updatedAt", Json.str (strftimeISO r.updated_at))] ∧
    (∃ p, strftimeISO d = p ++ "Z") ∧
    (health_check d).body = Json.obj [
      ("status", Json.str "OK"),
      ("message", Json.str "Flask API is running"),
      ("timestamp", Json.str (isoformatUTC d))] ∧
    (∃ q, isoformatUTC d = q ++ "+00:00") :=
  ⟨rfl, ⟨_, rfl⟩, rfl, ⟨_, rfl⟩⟩

/-- C9: for every update or delete request whose id does not resolve to an
existing record, the operation responds with status 404 and leaves the
store unchanged. -/
theorem C9_missing_id_404 (s : Store) (rid : Nat)
    (data : Option (List (String × String))) (now : DateTime)
    (h : findRec s rid = none) :
    (update_record s rid data now).1.status = 404 ∧
    (update_record s rid data now).2 = s ∧
    (delete_record s rid).1.status = 404 ∧
    (delete_record s rid).2 = s := by
  rw [update_record_missing s rid data now h,
    delete_record_missing s rid h]
  exact ⟨rfl, rfl, rfl, rfl⟩

/-- C9 witness: id 5 does not exist in s1, so update and delete respond
404 and leave s1 unchanged. -/
theorem C9_witness :
    (update_record s1 5 (some [("name", "Q")]) dA).1.status = 404 ∧
    (update_record s1 5 (some [("name", "Q")]) dA).2 = s1 ∧
    (delete_record s1 5).1.status = 404 ∧
    (delete_record s1 5).2 = s1 :=
  C9_missing_id_404 s1 5 (some [("name", "Q")]) dA (by decide)

/-- C10: for every update or delete request on a missing id, the whole 404
response equals the one produced by the generic endpoint handler, whose
body is the object mapping error to the string Endpoint not found, rather
than a record-specific message. -/
theorem C10_missing_id_generic_body (s : Store) (rid : Nat)
    (data : Option (List (String × String))) (now : DateTime)
    (h : findRec s rid = none) :
    (update_record s rid data now).1 = not_found ∧
    (delete_record s rid).1 = not_found ∧
    not_found.body = Json.obj [("error", Json.str "Endpoint not found")] := by
  rw [update_record_missing s rid data now h,
    delete_record_missing s rid h]
  exact ⟨rfl, rfl, rfl⟩

/-- C10 witness: the generic 404 payload observed on update and delete of
the missing id 7 in s1. -/
theorem C10_witness :
    (update_record s1 7 none dA).1 = not_found ∧
    (delete_record s1 7).1 = not_found ∧
    not_found.body = Json.obj [("error", Json.str "Endpoint not found")] :=
  C10_missing_id_generic_body s1 7 none dA (by decide)
